import Mathlib

/-!
Shallow embedding of the Deviations API (src/main.py of ernestoper/api-opensearch)
and proofs about its filter-to-query compiler, its parameter validation and its
error mapping.

Conventions of the embedding:
  * Python `datetime` objects (naive, second resolution, as used by every input
    considered here) are the structure `PyDatetime`; Python comparison of
    datetimes is lexicographic on the components, `datetime.isoformat` is
    `PyDatetime.isoformat`, and `datetime.fromisoformat` is
    `PyDatetime.fromisoformat` (the stdlib grammar `YYYY-MM-DD[<sep>HH[:MM[:SS]]]`
    with calendar validation; fractions and offsets, which no input here uses,
    are not modelled).
  * Raising `HTTPException(status_code, detail)` and returning normally are the
    two sides of an `Except HTTPException` value.
  * The OpenSearch client is a function argument: `search` for the list
    endpoint, `get` for the by-id endpoint; a raised backend exception `e` is
    the value `Except.error e` with `e` the text `str(e)`.
  * Deviation documents are opaque: the handlers are parametric in the document
    type `Doc`, which makes it evident they cannot transform a record.
-/

namespace DeviationsApi

/-- Naive Python datetime restricted to second resolution (all timestamps in
the API flow have zero microseconds and no timezone). -/
structure PyDatetime where
  year : Nat
  month : Nat
  day : Nat
  hour : Nat
  minute : Nat
  second : Nat
deriving DecidableEq

/-- Left-pad the decimal representation of `n` with zeros to width `w`,
as Python does inside `datetime.isoformat`. -/
def padNum (w : Nat) (n : Nat) : String :=
  let s := toString n
  String.mk (List.replicate (w - s.length) '0') ++ s

/-- Python `datetime.isoformat()` for a naive second-resolution datetime:
the string `YYYY-MM-DDTHH:MM:SS`. -/
def PyDatetime.isoformat (d : PyDatetime) : String :=
  padNum 4 d.year ++ "-" ++ padNum 2 d.month ++ "-" ++ padNum 2 d.day ++ "T" ++
    padNum 2 d.hour ++ ":" ++ padNum 2 d.minute ++ ":" ++ padNum 2 d.second

/-- Python `<` on datetimes: lexicographic on the components. -/
def PyDatetime.ltb (a b : PyDatetime) : Bool :=
  if a.year ≠ b.year then decide (a.year < b.year)
  else if a.month ≠ b.month then decide (a.month < b.month)
  else if a.day ≠ b.day then decide (a.day < b.day)
  else if a.hour ≠ b.hour then decide (a.hour < b.hour)
  else if a.minute ≠ b.minute then decide (a.minute < b.minute)
  else decide (a.second < b.second)

/-- Value of a decimal digit character, `none` on a non-digit. -/
def digitVal (c : Char) : Option Nat :=
  if c.isDigit then some (c.toNat - 48) else none

/-- Two decimal digit characters as a number. -/
def twoDigits (a b : Char) : Option Nat :=
  match digitVal a, digitVal b with
  | some x, some y => some (10 * x + y)
  | _, _ => none

/-- Four decimal digit characters as a number. -/
def fourDigits (a b c d : Char) : Option Nat :=
  match twoDigits a b, twoDigits c d with
  | some x, some y => some (100 * x + y)
  | _, _ => none

/-- Gregorian leap-year test, as in the Python `datetime` module. -/
def isLeap (y : Nat) : Bool :=
  y % 4 == 0 && (y % 100 != 0 || y % 400 == 0)

/-- Days in a month, as in the Python `datetime` module. -/
def daysInMonth (y m : Nat) : Nat :=
  if m == 2 then (if isLeap y then 29 else 28)
  else if m == 4 || m == 6 || m == 9 || m == 11 then 30
  else 31

/-- The range checks of the Python `datetime` constructor. -/
def mkDatetime (y mo d h mi s : Nat) : Option PyDatetime :=
  if 1 ≤ y ∧ y ≤ 9999 ∧ 1 ≤ mo ∧ mo ≤ 12 ∧ 1 ≤ d ∧ d ≤ daysInMonth y mo ∧
      h ≤ 23 ∧ mi ≤ 59 ∧ s ≤ 59 then
    some ⟨y, mo, d, h, mi, s⟩
  else
    none

/-- Time-of-day part of the stdlib ISO grammar: `HH`, `HH:MM` or `HH:MM:SS`. -/
def parseTimePart : List Char → Option (Nat × Nat × Nat)
  | [h1, h2] =>
    (twoDigits h1 h2).map (fun h => (h, 0, 0))
  | [h1, h2, ':', m1, m2] =>
    match twoDigits h1 h2, twoDigits m1 m2 with
    | some h, some m => some (h, m, 0)
    | _, _ => none
  | [h1, h2, ':', m1, m2, ':', s1, s2] =>
    match twoDigits h1 h2, twoDigits m1 m2, twoDigits s1 s2 with
    | some h, some m, some s => some (h, m, s)
    | _, _, _ => none
  | _ => none

/-- Python `datetime.fromisoformat`: a fixed `YYYY-MM-DD` date part, then
optionally one separator character and a time part, with the constructor
range checks; `none` models the raised `ValueError`. -/
def PyDatetime.fromisoformat (s : String) : Option PyDatetime :=
  match s.data with
  | y1 :: y2 :: y3 :: y4 :: '-' :: m1 :: m2 :: '-' :: d1 :: d2 :: rest =>
    match fourDigits y1 y2 y3 y4, twoDigits m1 m2, twoDigits d1 d2 with
    | some y, some mo, some d =>
      match rest with
      | [] => mkDatetime y mo d 0 0 0
      | _ :: timeChars =>
        match parseTimePart timeChars with
        | some (h, mi, sec) => mkDatetime y mo d h mi sec
        | none => none
    | _, _, _ => none
  | _ => none

/-- fastapi `HTTPException`: a status code and a detail string. -/
structure HTTPException where
  status_code : Nat
  detail : String
deriving DecidableEq

/-- One clause of the compiled OpenSearch boolean query: an exact-match
`term` clause, or a `range` clause with optional `gte` and `lte` bounds
holding already-serialized timestamps. -/
inductive Clause where
  | term (field : String) (value : String)
  | range (field : String) (gte : Option String) (lte : Option String)
deriving DecidableEq

/-- The query body built at src/main.py line 217: the `must` list of the
boolean conjunction in the envelope `query.bool.must`. -/
structure BoolQuery where
  must : List Clause
deriving DecidableEq

/-- The pydantic model `DeviationQueryParams` (src/main.py lines 142-149),
holding the already type-checked parameters of one list request; the field
defaults mirror the source (`size = 10`, `from_ = 0`). -/
structure DeviationQueryParams where
  camera_name : Option String
  event_type : Option String
  camera_type : Option String
  start_time : Option PyDatetime
  end_time : Option PyDatetime
  size : Int
  from_ : Int
deriving DecidableEq

/-- The Filter Set with no fields set: every filter absent and the declared
defaults `size = 10`, `from_ = 0`. -/
def emptyParams : DeviationQueryParams :=
  ⟨none, none, none, none, none, 10, 0⟩

/-- One dispatched search call: `opensearch_client.search(index=..., body=...,
size=..., from_=...)` at src/main.py lines 260-265. The pagination values are
separate arguments of the call, not part of the boolean query body. -/
structure SearchRequest where
  index : String
  body : BoolQuery
  size : Int
  from_ : Int
deriving DecidableEq

/-- Validation-plus-compilation stage of `get_deviations` (src/main.py lines
206-257): sequentially append a `term` clause for each truthy string filter
(Python truthiness: absent or empty means no clause), then branch on the
presence of the time bounds; when both bounds are present and
`start_time > end_time`, raise `HTTPException(400)` before building the range
clause; otherwise produce the search call with the `must` list and the
pagination parameters. -/
def get_deviations_compile (p : DeviationQueryParams) : Except HTTPException SearchRequest :=
  let must : List Clause := []
  let must := match p.camera_name with
    | some s => if s == "" then must else must ++ [Clause.term "camera_name" s]
    | none => must
  let must := match p.event_type with
    | some s => if s == "" then must else must ++ [Clause.term "event_type" s]
    | none => must
  let must := match p.camera_type with
    | some s => if s == "" then must else must ++ [Clause.term "camera_type" s]
    | none => must
  match p.start_time, p.end_time with
  | some st, some en =>
    if PyDatetime.ltb en st then
      Except.error ⟨400, "start_time deve ser anterior a end_time"⟩
    else
      Except.ok ⟨"deviations",
        ⟨must ++ [Clause.range "timestamp" (some st.isoformat) (some en.isoformat)]⟩,
        p.size, p.from_⟩
  | some st, none =>
    Except.ok ⟨"deviations",
      ⟨must ++ [Clause.range "timestamp" (some st.isoformat) none]⟩,
      p.size, p.from_⟩
  | none, some en =>
    Except.ok ⟨"deviations",
      ⟨must ++ [Clause.range "timestamp" none (some en.isoformat)]⟩,
      p.size, p.from_⟩
  | none, none =>
    Except.ok ⟨"deviations", ⟨must⟩, p.size, p.from_⟩

/-- One search hit; the `source` field models the `_source` key read at
src/main.py line 268. -/
structure SearchHit (Doc : Type) where
  source : Doc

/-- The `hits` object of an OpenSearch search response, whose own `hits`
key holds the hit list (`response["hits"]["hits"]`). -/
structure SearchHits (Doc : Type) where
  hits : List (SearchHit Doc)

/-- An OpenSearch search response as read by the handler. -/
structure SearchResponse (Doc : Type) where
  hits : SearchHits Doc

/-- The response body `{"deviations": [...]}` of the list endpoint. -/
structure DeviationsReply (Doc : Type) where
  deviations : List Doc
deriving DecidableEq

/-- Dispatch-and-respond tail of `get_deviations` (src/main.py lines 259-275):
run the search call, on success map each hit to its stored `_source` fields
and wrap them as `deviations`; a backend exception `e` is caught by the
generic handler and re-raised as `HTTPException(500)` whose detail embeds
`str(e)`. -/
def searchAndRespond {Doc : Type} (search : SearchRequest → Except String (SearchResponse Doc))
    (req : SearchRequest) : Except HTTPException (DeviationsReply Doc) :=
  match search req with
  | Except.ok resp => Except.ok ⟨resp.hits.hits.map (fun h => h.source)⟩
  | Except.error e => Except.error ⟨500, "Erro ao consultar OpenSearch: " ++ e⟩

/-- The whole `get_deviations` handler body (src/main.py lines 204-275): the
compile stage, whose `HTTPException` is re-raised unchanged by the
`except HTTPException: raise` arm, followed by the dispatch stage. -/
def get_deviations_handler {Doc : Type} (p : DeviationQueryParams)
    (search : SearchRequest → Except String (SearchResponse Doc)) :
    Except HTTPException (DeviationsReply Doc) :=
  match get_deviations_compile p with
  | Except.error ex => Except.error ex
  | Except.ok req => searchAndRespond search req

/-- One point-lookup call: `opensearch_client.get(index=..., id=...)` at
src/main.py lines 303-306. -/
structure GetRequest where
  index : String
  id : String
deriving DecidableEq

/-- An OpenSearch get response; `source` models the `_source` key read at
src/main.py line 307. -/
structure GetResponse (Doc : Type) where
  source : Doc

/-- The `get_deviation_by_id` handler (src/main.py lines 298-310): no
validation of the path parameter, one point lookup on index `deviations`,
the stored fields returned verbatim on success, and every raised exception
`e` mapped to `HTTPException(404)` whose detail embeds `str(e)`. -/
def get_deviation_by_id {Doc : Type} (deviation_id : String)
    (get : GetRequest → Except String (GetResponse Doc)) : Except HTTPException Doc :=
  match get ⟨"deviations", deviation_id⟩ with
  | Except.ok resp => Except.ok resp.source
  | Except.error e => Except.error ⟨404, "Desvio não encontrado: " ++ e⟩

/-- A raw query-string parameter: absent, or present with its text. -/
inductive RawParam where
  | missing
  | str (s : String)
deriving DecidableEq

/-- Decimal digits as a number, `none` on a non-digit; accumulator form. -/
def digitsToNat : List Char → Nat → Option Nat
  | [], acc => some acc
  | c :: cs, acc =>
    match digitVal c with
    | some d => digitsToNat cs (10 * acc + d)
    | none => none

/-- Python-style integer text: an optional sign followed by at least one
decimal digit; models the `int` coercion applied to raw query parameters. -/
def pyToInt (s : String) : Option Int :=
  match s.data with
  | [] => none
  | '-' :: cs =>
    match cs with
    | [] => none
    | _ :: _ => (digitsToNat cs 0).map (fun n => -(n : Int))
  | '+' :: cs =>
    match cs with
    | [] => none
    | _ :: _ => (digitsToNat cs 0).map (fun n => (n : Int))
  | cs => (digitsToNat cs 0).map (fun n => (n : Int))

/-- Modelled from the spec: the enforcement of the declaration
`size: int = Query(10, ge=1, le=100)` (src/main.py line 200) on the raw
query string. The declaration lives in the source but is executed by the
web framework, which is outside this repository; per the spec (and the
400 response declared for invalid parameters at src/main.py line 190) a
violated constraint surfaces as the client-input error `InvalidSize` with
status 400 before the handler body runs, and an absent parameter takes the
declared default 10. -/
def parse_size_param : RawParam → Except HTTPException Int
  | RawParam.missing => Except.ok 10
  | RawParam.str s =>
    match pyToInt s with
    | none => Except.error ⟨400, "InvalidSize"⟩
    | some n =>
      if n < 1 then Except.error ⟨400, "InvalidSize"⟩
      else if 100 < n then Except.error ⟨400, "InvalidSize"⟩
      else Except.ok n

/-- Modelled from the spec: the enforcement of the declaration
`from_: int = Query(0, alias="from")` (src/main.py line 201) on the raw
query string. The source declares the integer type and the default 0 and
no range constraint at all, so only a non-integer text is rejected (by the
framework type coercion); every integer value, negative ones included, is
accepted. -/
def parse_from_param : RawParam → Except HTTPException Int
  | RawParam.missing => Except.ok 0
  | RawParam.str s =>
    match pyToInt s with
    | none => Except.error ⟨400, "InvalidOffset"⟩
    | some n => Except.ok n

/-- A value reaching the pydantic validator `parse_datetime`: a text, an
already parsed datetime, or Python `None`. -/
inductive PyValue where
  | str (s : String)
  | dt (d : PyDatetime)
  | pyNone
deriving DecidableEq

/-- The fixed message of the `ValueError` raised at src/main.py line 157. -/
def parse_datetime_msg : String :=
  "Formato de data inválido. Use o formato ISO 8601 (YYYY-MM-DDTHH:MM:SS)."

/-- The pydantic validator `DeviationQueryParams.parse_datetime`
(src/main.py lines 151-158): a string value must parse with
`datetime.fromisoformat`, and on failure a `ValueError` with a fixed
message is raised; any non-string value is returned unchanged. -/
def parse_datetime : PyValue → Except String PyValue
  | PyValue.str s =>
    match PyDatetime.fromisoformat s with
    | some d => Except.ok (PyValue.dt d)
    | none => Except.error parse_datetime_msg
  | v => Except.ok v

/-- Whether the second list starts with the first one. -/
def leadsWith : List Char → List Char → Bool
  | [], _ => true
  | _ :: _, [] => false
  | a :: as, b :: bs => a == b && leadsWith as bs

/-- Whether the first list occurs contiguously inside the second one. -/
def hasSubList (need : List Char) : List Char → Bool
  | [] => need.isEmpty
  | c :: rest => leadsWith need (c :: rest) || hasSubList need rest

/-- Clause shape test: exact-match clause. -/
def isTermClause : Clause → Bool
  | Clause.term _ _ => true
  | Clause.range _ _ _ => false

/-- Clause shape test: range clause. -/
def isRangeClause : Clause → Bool
  | Clause.term _ _ => false
  | Clause.range _ _ _ => true

/-- The exact-match clauses the spec prescribes: one per present and
non-empty string filter, in the order camera_name, event_type, camera_type. -/
def spec_termClauses (p : DeviationQueryParams) : List Clause :=
  (match p.camera_name with
    | some s => if s == "" then [] else [Clause.term "camera_name" s]
    | none => []) ++
  (match p.event_type with
    | some s => if s == "" then [] else [Clause.term "event_type" s]
    | none => []) ++
  (match p.camera_type with
    | some s => if s == "" then [] else [Clause.term "camera_type" s]
    | none => [])

/-- The range clauses the spec prescribes: one clause bounded on the sides
whose timestamps are present, nothing when neither bound is present. -/
def spec_rangeClauses (p : DeviationQueryParams) : List Clause :=
  match p.start_time, p.end_time with
  | some st, some en =>
    [Clause.range "timestamp" (some st.isoformat) (some en.isoformat)]
  | some st, none => [Clause.range "timestamp" (some st.isoformat) none]
  | none, some en => [Clause.range "timestamp" none (some en.isoformat)]
  | none, none => []

/-- The cross-field time invariant check of src/main.py line 231: violated
exactly when both bounds are present and `start_time > end_time`. -/
def timeRangeViolated (p : DeviationQueryParams) : Bool :=
  match p.start_time, p.end_time with
  | some st, some en => PyDatetime.ltb en st
  | _, _ => false

/-- Outcome of the module-level startup of src/main.py lines 109-124: the
configuration files are required (a missing one raises `FileNotFoundError`
with the message below), the environment and `config.ini` are read, and no
OpenSearch client is constructed at this point: `get_opensearch_client`
is only ever referenced as a request-time dependency (lines 202, 300, 329).
`clientsConstructed` counts the `OpenSearch(...)` constructor calls made
so far. -/
structure StartupResult where
  configLoaded : Bool
  clientsConstructed : Nat
deriving DecidableEq

/-- Module-level startup (src/main.py lines 109-124). -/
def moduleStartup (configExists envExists : Bool) : Except String StartupResult :=
  if !configExists then Except.error "Arquivo config.ini não encontrado!"
  else if !envExists then Except.error "Arquivo .env não encontrado!"
  else Except.ok ⟨true, 0⟩

/-- The dependency `get_opensearch_client` (src/main.py lines 127-139): its
body unconditionally constructs a new `OpenSearch(...)` client from the
configuration, then pings it and raises when the ping fails. The argument
`constructed` is the number of clients built so far and doubles as the id
of the client built here; the construction happens before the ping, so the
count grows on every call whatever the ping says. -/
def get_opensearch_client (ping : Nat → Bool) (constructed : Nat) :
    Except String Nat × Nat :=
  let clientId := constructed
  ((if ping clientId then Except.ok clientId
    else Except.error "Não foi possível conectar ao OpenSearch!"),
   constructed + 1)

/-- Client constructions after serving `n` requests from startup. The web
framework resolves `Depends(get_opensearch_client)` afresh on every request
(its dependency cache spans a single request only), so each handler
invocation at src/main.py lines 202, 300 and 329 calls
`get_opensearch_client` once. -/
def clientsAfterRequests (ping : Nat → Bool) : Nat → Nat
  | 0 => 0
  | n + 1 => (get_opensearch_client ping (clientsAfterRequests ping n)).2

/-- Reflexivity of the starts-with test. -/
theorem leadsWith_refl (l : List Char) : leadsWith l l = true := by
  induction l with
  | nil => rfl
  | cons a as ih => simp [leadsWith, ih]

/-- Every list occurs inside itself. -/
theorem hasSubList_self (l : List Char) : hasSubList l l = true := by
  cases l with
  | nil => rfl
  | cons a as => simp [hasSubList, leadsWith_refl]

/-- A list occurs inside anything that ends with it. -/
theorem hasSubList_append (pre l : List Char) : hasSubList l (pre ++ l) = true := by
  induction pre with
  | nil => simpa using hasSubList_self l
  | cons c cs ih => simp [hasSubList, ih]

/-- Central refinement lemma: on every Filter Set that does not violate the
time invariant, the sequentially built query of `get_deviations` equals the
spec-shaped decomposition, clause lists concatenated in insertion order and
the pagination values passed outside the boolean body. -/
theorem compile_eq (p : DeviationQueryParams) (h : timeRangeViolated p = false) :
    get_deviations_compile p =
      Except.ok ⟨"deviations", ⟨spec_termClauses p ++ spec_rangeClauses p⟩, p.size, p.from_⟩ := by
  obtain ⟨cn, ev, ct, st, en, sz, fr⟩ := p
  cases st <;> cases en <;>
    simp_all [get_deviations_compile, spec_termClauses, spec_rangeClauses, timeRangeViolated] <;>
    cases cn <;> cases ev <;> cases ct <;> simp_all <;> split_ifs <;> simp_all

/-- On a violated time invariant the compile stage raises the 400 exception. -/
theorem compile_err (p : DeviationQueryParams) (h : timeRangeViolated p = true) :
    get_deviations_compile p = Except.error ⟨400, "start_time deve ser anterior a end_time"⟩ := by
  obtain ⟨cn, ev, ct, st, en, sz, fr⟩ := p
  cases st <;> cases en <;> simp_all [get_deviations_compile, timeRangeViolated]

/-- All prescribed exact-match clauses are term clauses. -/
theorem filter_term_spec (p : DeviationQueryParams) :
    (spec_termClauses p).filter isTermClause = spec_termClauses p := by
  obtain ⟨cn, ev, ct, st, en, sz, fr⟩ := p
  cases cn <;> cases ev <;> cases ct <;>
    simp [spec_termClauses, isTermClause] <;> split_ifs <;> simp [isTermClause]

/-- No prescribed range clause is a term clause. -/
theorem filter_term_range (p : DeviationQueryParams) :
    (spec_rangeClauses p).filter isTermClause = [] := by
  obtain ⟨cn, ev, ct, st, en, sz, fr⟩ := p
  cases st <;> cases en <;> simp [spec_rangeClauses, isTermClause]

/-- All prescribed range clauses are range clauses. -/
theorem filter_range_spec (p : DeviationQueryParams) :
    (spec_rangeClauses p).filter isRangeClause = spec_rangeClauses p := by
  obtain ⟨cn, ev, ct, st, en, sz, fr⟩ := p
  cases st <;> cases en <;> simp [spec_rangeClauses, isRangeClause]

/-- No prescribed exact-match clause is a range clause. -/
theorem filter_range_term (p : DeviationQueryParams) :
    (spec_termClauses p).filter isRangeClause = [] := by
  obtain ⟨cn, ev, ct, st, en, sz, fr⟩ := p
  cases cn <;> cases ev <;> cases ct <;> simp [spec_termClauses, isRangeClause]

/-- Claim C1: for every valid Filter Set the compiled query document holds
exactly one term clause for each of camera_name, event_type, camera_type
that is present and non-empty and no other term clauses, in insertion order
camera_name, event_type, camera_type, followed by the time-range clauses:
the whole `must` list equals `spec_termClauses ++ spec_rangeClauses`, and
its term clauses are exactly `spec_termClauses`. -/
theorem c1_term_clauses (p : DeviationQueryParams) (h : timeRangeViolated p = false) :
    ∃ req : SearchRequest, get_deviations_compile p = Except.ok req ∧
      req.body.must = spec_termClauses p ++ spec_rangeClauses p ∧
      req.body.must.filter isTermClause = spec_termClauses p := by
  refine ⟨_, compile_eq p h, rfl, ?_⟩
  simp [List.filter_append, filter_term_spec, filter_term_range]

/-- Witness for C1 at the Filter Set with only camera_name set. -/
theorem c1_witness :
    timeRangeViolated ⟨some "Camera_01", none, none, none, none, 10, 0⟩ = false ∧
    (∃ req : SearchRequest,
      get_deviations_compile ⟨some "Camera_01", none, none, none, none, 10, 0⟩ = Except.ok req ∧
      req.body.must = spec_termClauses ⟨some "Camera_01", none, none, none, none, 10, 0⟩ ++
        spec_rangeClauses ⟨some "Camera_01", none, none, none, none, 10, 0⟩ ∧
      req.body.must.filter isTermClause =
        spec_termClauses ⟨some "Camera_01", none, none, none, none, 10, 0⟩) :=
  ⟨rfl, c1_term_clauses ⟨some "Camera_01", none, none, none, none, 10, 0⟩ rfl⟩

/-- Claim C2: for every valid Filter Set the compiled query holds exactly one
range clause on the timestamp field when at least one bound is present and
none otherwise; both bounds present give one clause with inclusive gte and
lte bounds serialized as ISO-8601, only the lower bound gives gte only, only
the upper bound gives lte only. -/
theorem c2_range_clause (p : DeviationQueryParams) (h : timeRangeViolated p = false) :
    ∃ req : SearchRequest, get_deviations_compile p = Except.ok req ∧
      req.body.must.filter isRangeClause = spec_rangeClauses p ∧
      (∀ st en : PyDatetime, p.start_time = some st → p.end_time = some en →
        req.body.must.filter isRangeClause =
          [Clause.range "timestamp" (some st.isoformat) (some en.isoformat)]) ∧
      (∀ st : PyDatetime, p.start_time = some st → p.end_time = none →
        req.body.must.filter isRangeClause =
          [Clause.range "timestamp" (some st.isoformat) none]) ∧
      (∀ en : PyDatetime, p.start_time = none → p.end_time = some en →
        req.body.must.filter isRangeClause =
          [Clause.range "timestamp" none (some en.isoformat)]) ∧
      (p.start_time = none → p.end_time = none →
        req.body.must.filter isRangeClause = []) := by
  have hf : (spec_termClauses p ++ spec_rangeClauses p).filter isRangeClause
      = spec_rangeClauses p := by
    simp [List.filter_append, filter_range_spec, filter_range_term]
  refine ⟨_, compile_eq p h, hf, ?_, ?_, ?_, ?_⟩
  · intro st en hs he; rw [hf]; simp [spec_rangeClauses, hs, he]
  · intro st hs he; rw [hf]; simp [spec_rangeClauses, hs, he]
  · intro en hs he; rw [hf]; simp [spec_rangeClauses, hs, he]
  · intro hs he; rw [hf]; simp [spec_rangeClauses, hs, he]

/-- Witness for C2 at the Filter Set holding the full day 2023-10-01. -/
theorem c2_witness :
    timeRangeViolated ⟨none, none, none, some ⟨2023, 10, 1, 0, 0, 0⟩,
      some ⟨2023, 10, 1, 23, 59, 59⟩, 10, 0⟩ = false ∧
    (∃ req : SearchRequest,
      get_deviations_compile ⟨none, none, none, some ⟨2023, 10, 1, 0, 0, 0⟩,
        some ⟨2023, 10, 1, 23, 59, 59⟩, 10, 0⟩ = Except.ok req ∧
      req.body.must.filter isRangeClause =
        spec_rangeClauses ⟨none, none, none, some ⟨2023, 10, 1, 0, 0, 0⟩,
          some ⟨2023, 10, 1, 23, 59, 59⟩, 10, 0⟩) := by
  refine ⟨by decide, ?_⟩
  obtain ⟨req, h1, h2, _⟩ := c2_range_clause ⟨none, none, none, some ⟨2023, 10, 1, 0, 0, 0⟩,
    some ⟨2023, 10, 1, 23, 59, 59⟩, 10, 0⟩ (by decide)
  exact ⟨req, h1, h2⟩

/-- Claim C3: the all-empty Filter Set compiles, without being rejected, to
the match-all conjunction with an empty clause list, and the request is
dispatched with the default pagination `size = 10` and `from = 0` carried as
separate search-call parameters outside the boolean query body (they are the
`size` and `from_` fields of the dispatched `SearchRequest`, not clauses). -/
theorem c3_empty_filter_set :
    get_deviations_compile emptyParams = Except.ok ⟨"deviations", ⟨[]⟩, 10, 0⟩ ∧
    parse_size_param RawParam.missing = Except.ok 10 ∧
    parse_from_param RawParam.missing = Except.ok 0 ∧
    ∀ (Doc : Type) (search : SearchRequest → Except String (SearchResponse Doc)),
      get_deviations_handler emptyParams search =
        searchAndRespond search ⟨"deviations", ⟨[]⟩, 10, 0⟩ :=
  ⟨rfl, rfl, rfl, fun _ _ => rfl⟩

/-- Witness for C3: the dispatch part instantiated at a failing backend. -/
theorem c3_witness :
    get_deviations_handler emptyParams (fun _ => Except.error "conn") =
      (Except.error ⟨500, "Erro ao consultar OpenSearch: conn"⟩ :
        Except HTTPException (DeviationsReply Nat)) := by
  rw [c3_empty_filter_set.2.2.2 Nat (fun _ => Except.error "conn")]
  rfl

/-- Claim C4: with both time bounds present and start after end, the list
operation fails with the 400 exception before any search is dispatched and
before any range clause is compiled (the handler result is that error for
every backend whatsoever); with start not after end the compile stage does
not fail. -/
theorem c4_time_range_validation (p : DeviationQueryParams) (st en : PyDatetime)
    (hs : p.start_time = some st) (he : p.end_time = some en) :
    (PyDatetime.ltb en st = true →
      get_deviations_compile p = Except.error ⟨400, "start_time deve ser anterior a end_time"⟩ ∧
      ∀ (Doc : Type) (search : SearchRequest → Except String (SearchResponse Doc)),
        get_deviations_handler p search =
          Except.error ⟨400, "start_time deve ser anterior a end_time"⟩) ∧
    (PyDatetime.ltb en st = false →
      ∃ req : SearchRequest, get_deviations_compile p = Except.ok req) := by
  constructor
  · intro hlt
    have hv : timeRangeViolated p = true := by simp [timeRangeViolated, hs, he, hlt]
    have hc := compile_err p hv
    exact ⟨hc, fun Doc search => by simp [get_deviations_handler, hc]⟩
  · intro hlt
    have hv : timeRangeViolated p = false := by simp [timeRangeViolated, hs, he, hlt]
    exact ⟨_, compile_eq p hv⟩

/-- Witness for C4 at the spec scenario start 2023-10-01T23:59:59,
end 2023-10-01T00:00:00. -/
theorem c4_witness :
    get_deviations_compile ⟨none, none, none, some ⟨2023, 10, 1, 23, 59, 59⟩,
      some ⟨2023, 10, 1, 0, 0, 0⟩, 10, 0⟩ =
      Except.error ⟨400, "start_time deve ser anterior a end_time"⟩ :=
  ((c4_time_range_validation _ ⟨2023, 10, 1, 23, 59, 59⟩ ⟨2023, 10, 1, 0, 0, 0⟩
    rfl rfl).1 (by decide)).1

/-- Claim C5: size validation accepts exactly the integers in the interval
1 to 100 (boundaries included), rejecting every out-of-range integer and
every non-numeric text with the InvalidSize client-input error of status
400, in particular the inputs 0, 101, -1 and a non-numeric text. -/
theorem c5_size_validation :
    (∀ (s : String) (n : Int), pyToInt s = some n → 1 ≤ n → n ≤ 100 →
      parse_size_param (RawParam.str s) = Except.ok n) ∧
    (∀ (s : String) (n : Int), pyToInt s = some n → (n < 1 ∨ 100 < n) →
      parse_size_param (RawParam.str s) = Except.error ⟨400, "InvalidSize"⟩) ∧
    (∀ s : String, pyToInt s = none →
      parse_size_param (RawParam.str s) = Except.error ⟨400, "InvalidSize"⟩) ∧
    parse_size_param (RawParam.str "0") = Except.error ⟨400, "InvalidSize"⟩ ∧
    parse_size_param (RawParam.str "101") = Except.error ⟨400, "InvalidSize"⟩ ∧
    parse_size_param (RawParam.str "-1") = Except.error ⟨400, "InvalidSize"⟩ ∧
    parse_size_param (RawParam.str "abc") = Except.error ⟨400, "InvalidSize"⟩ ∧
    parse_size_param (RawParam.str "1") = Except.ok 1 ∧
    parse_size_param (RawParam.str "100") = Except.ok 100 := by
  refine ⟨?_, ?_, ?_, rfl, rfl, rfl, rfl, rfl, rfl⟩
  · intro s n hp h1 h100
    simp only [parse_size_param, hp]
    rw [if_neg (by omega), if_neg (by omega)]
  · intro s n hp hout
    simp only [parse_size_param, hp]
    rcases hout with hlo | hhi
    · rw [if_pos hlo]
    · rw [if_neg (by omega), if_pos hhi]
  · intro s hp
    simp [parse_size_param, hp]

/-- Witness for C5: the in-range input 50 is accepted. -/
theorem c5_witness : parse_size_param (RawParam.str "50") = Except.ok 50 :=
  c5_size_validation.1 "50" 50 rfl (by norm_num) (by norm_num)

/-- Counterexample to C6: the raw offset -1 is not rejected but accepted,
and it flows into the dispatched search call unchanged; the source declares
no lower bound on `from` (src/main.py line 201), so no InvalidOffset
rejection exists. -/
theorem c6_counterexample :
    parse_from_param (RawParam.str "-1") = Except.ok (-1) ∧
    get_deviations_compile ⟨none, none, none, none, none, 10, -1⟩ =
      Except.ok ⟨"deviations", ⟨[]⟩, 10, -1⟩ :=
  ⟨rfl, rfl⟩

/-- Claim C6 as amended: offset validation imposes no range constraint at
all: every integer text, negative values included, is accepted, and an
absent offset takes the default 0. -/
theorem c6_no_offset_bound :
    (∀ (s : String) (n : Int), pyToInt s = some n →
      parse_from_param (RawParam.str s) = Except.ok n) ∧
    parse_from_param RawParam.missing = Except.ok 0 := by
  refine ⟨?_, rfl⟩
  intro s n hp
  simp [parse_from_param, hp]

/-- Witness for amended C6: the negative offset -7 is accepted. -/
theorem c6_witness : parse_from_param (RawParam.str "-7") = Except.ok (-7) :=
  c6_no_offset_bound.1 "-7" (-7) rfl

/-- Counterexample to C7: the error raised for the malformed date
"not-a-date" is the fixed message of src/main.py line 157, and that message
contains neither the offending raw value nor either field name, refuting the
claimed error payload. -/
theorem c7_counterexample :
    parse_datetime (PyValue.str "not-a-date") = Except.error parse_datetime_msg ∧
    hasSubList ("not-a-date" : String).data parse_datetime_msg.data = false ∧
    hasSubList ("start_time" : String).data parse_datetime_msg.data = false ∧
    hasSubList ("end_time" : String).data parse_datetime_msg.data = false :=
  ⟨rfl, by decide, by decide, by decide⟩

/-- Claim C7 as amended: a string that parses as an ISO-8601 date-time is
accepted as the parsed instant, a string that does not parse fails with the
InvalidDateFormat validation error whose message is the fixed text of
src/main.py line 157 (carrying neither the field name nor the raw value);
in particular 2023-10-01T12:34:56 parses and not-a-date fails. -/
theorem c7_date_parse :
    (∀ (s : String) (d : PyDatetime), PyDatetime.fromisoformat s = some d →
      parse_datetime (PyValue.str s) = Except.ok (PyValue.dt d)) ∧
    (∀ s : String, PyDatetime.fromisoformat s = none →
      parse_datetime (PyValue.str s) = Except.error parse_datetime_msg) ∧
    PyDatetime.fromisoformat "2023-10-01T12:34:56" = some ⟨2023, 10, 1, 12, 34, 56⟩ ∧
    PyDatetime.fromisoformat "not-a-date" = none := by
  refine ⟨?_, ?_, by decide, by decide⟩
  · intro s d hp; simp [parse_datetime, hp]
  · intro s hp; simp [parse_datetime, hp]

/-- Witness for amended C7: a valid ISO date-time string is accepted. -/
theorem c7_witness :
    parse_datetime (PyValue.str "2023-10-01T12:34:56") =
      Except.ok (PyValue.dt ⟨2023, 10, 1, 12, 34, 56⟩) :=
  c7_date_parse.1 "2023-10-01T12:34:56" ⟨2023, 10, 1, 12, 34, 56⟩ (by decide)

/-- Claim C8: the get-by-id operation validates nothing about the path
parameter (any identifier string is dispatched as-is in a point lookup on
index deviations), returns the stored source fields verbatim on success,
and maps every lookup failure, whatever its message, to HTTP 404. -/
theorem c8_get_by_id (Doc : Type) (deviation_id : String)
    (get : GetRequest → Except String (GetResponse Doc)) :
    (∀ resp : GetResponse Doc, get ⟨"deviations", deviation_id⟩ = Except.ok resp →
      get_deviation_by_id deviation_id get = Except.ok resp.source) ∧
    (∀ e : String, get ⟨"deviations", deviation_id⟩ = Except.error e →
      get_deviation_by_id deviation_id get =
        Except.error ⟨404, "Desvio não encontrado: " ++ e⟩) := by
  constructor
  · intro resp hresp; simp [get_deviation_by_id, hresp]
  · intro e he; simp [get_deviation_by_id, he]

/-- Witness for C8: a failing lookup yields the 404. -/
theorem c8_witness :
    @get_deviation_by_id Nat "unknown-id" (fun _ => Except.error "lookup failure") =
      Except.error ⟨404, "Desvio não encontrado: " ++ "lookup failure"⟩ :=
  (c8_get_by_id Nat "unknown-id" (fun _ => Except.error "lookup failure")).2 "lookup failure" rfl

/-- Counterexample to C9: startup constructs zero client handles (it only
checks and loads the configuration), and serving two requests constructs
two handles, not one: the dependency builds a fresh client per request. -/
theorem c9_counterexample :
    moduleStartup true true = Except.ok ⟨true, 0⟩ ∧
    clientsAfterRequests (fun _ => true) 2 = 2 ∧
    clientsAfterRequests (fun _ => true) 2 ≠ 1 :=
  ⟨rfl, rfl, by decide⟩

/-- Claim C9 as amended: no client handle is constructed at process startup
(startup only verifies and loads configuration); instead every request
constructs exactly one fresh handle through the dependency, each with its
acquisition-time liveness ping, so `n` requests construct `n` handles. -/
theorem c9_per_request_client :
    moduleStartup true true = Except.ok ⟨true, 0⟩ ∧
    (∀ (ping : Nat → Bool) (c : Nat), (get_opensearch_client ping c).2 = c + 1) ∧
    (∀ (ping : Nat → Bool) (n : Nat), clientsAfterRequests ping n = n) := by
  refine ⟨rfl, fun ping c => rfl, ?_⟩
  intro ping n
  induction n with
  | zero => rfl
  | succ k ih => simp [clientsAfterRequests, get_opensearch_client, ih]

/-- Witness for amended C9 at three requests with a failing ping. -/
theorem c9_witness : clientsAfterRequests (fun _ => false) 3 = 3 :=
  c9_per_request_client.2.2 (fun _ => false) 3

/-- Claim C10: whenever the backend raises during the by-id lookup, the 404
detail string embeds the raw backend exception text, which therefore occurs
verbatim inside the response detail. -/
theorem c10_by_id_error_leak (Doc : Type) (deviation_id e : String)
    (get : GetRequest → Except String (GetResponse Doc))
    (h : get ⟨"deviations", deviation_id⟩ = Except.error e) :
    get_deviation_by_id deviation_id get =
      Except.error ⟨404, "Desvio não encontrado: " ++ e⟩ ∧
    hasSubList e.data ("Desvio não encontrado: " ++ e).data = true := by
  constructor
  · simp [get_deviation_by_id, h]
  · obtain ⟨l⟩ := e
    exact hasSubList_append _ _

/-- Witness for C10 with a backend raising ConnectionError text. -/
theorem c10_witness :
    @get_deviation_by_id Nat "42" (fun _ => Except.error "ConnectionError") =
      Except.error ⟨404, "Desvio não encontrado: " ++ "ConnectionError"⟩ ∧
    hasSubList ("ConnectionError" : String).data
      (("Desvio não encontrado: " ++ "ConnectionError" : String)).data = true :=
  c10_by_id_error_leak Nat "42" "ConnectionError" (fun _ => Except.error "ConnectionError") rfl

end DeviationsApi
